import Mathlib

/-!
Shallow embedding of the Coinbase `OrderBook` connection/state-machine core of
the tribeca repository (class `OrderBook` in the coinbase gateway source):
`clearBook`, `connect`, `disconnect`, `changeState`, `onMessage`,
`processMessage`, and the snapshot-merge/replay body (`load`) of
`loadSnapshot`.  I/O effects (socket close, reconnect timers, event-emitter
emissions, warning logs) are recorded as an ordered action trace; a thrown
JavaScript exception is modelled as an `Err` value carried alongside the
state the object had mutated up to the throw point.
-/

namespace Tribeca

/-- Connection states, mirroring `enum STATES {closed, open, syncing,
processing, error}` in the source. -/
inductive STATES where
  | closed
  | «open»
  | syncing
  | processing
  | error
deriving DecidableEq, Repr

/-- A book entry `{price, size, id}` (`coinbase.CoinbaseEntry`). -/
structure CoinbaseEntry where
  price : Int
  size : Int
  id : String
deriving DecidableEq, Repr

/-- One side of the book: a JS object keyed by orderID, modelled as an
association list in key-creation order. -/
abbrev SideMap := List (String × CoinbaseEntry)

/-- Lookup of a key in a side mapping (JS property read). -/
def alLookup (m : SideMap) (k : String) : Option CoinbaseEntry :=
  match m with
  | [] => none
  | (k', v) :: rest => if k' = k then some v else alLookup rest k

/-- JS property assignment `obj[k] = v`: overwrite in place when the key
exists, otherwise append. -/
def alInsert (m : SideMap) (k : String) (v : CoinbaseEntry) : SideMap :=
  match m with
  | [] => [(k, v)]
  | (k', v') :: rest => if k' = k then (k, v) :: rest else (k', v') :: alInsert rest k v

/-- `coinbase.CoinbaseBookStorage`: `{sequence, bids, asks}`; `sequence` is
`null` (`none`) right after `clearBook`. -/
structure CoinbaseBookStorage where
  sequence : Option Int
  bids : SideMap
  asks : SideMap
deriving DecidableEq, Repr

/-- A parsed socket update message; the core only reads `.sequence` and
`.type`, the rest of the payload rides along untouched. -/
structure CBMessage where
  sequence : Int
  type : String
deriving DecidableEq, Repr

/-- The second argument of `processMessage(message, t)`.  Live messages get a
`Date` (the receipt time); during queue replay, lodash `_.forEach` passes the
array index as the second iteratee argument, so replayed messages get a `Nat`
index instead. -/
inductive TimeVal where
  | date (d : Int)
  | idx (i : Nat)
deriving DecidableEq, Repr

/-- Observable effects of the `OrderBook` methods, in program order. -/
inductive Action where
  | socketClose
  | scheduleReconnect
  | emitStateChange (old : Option STATES) (new : STATES)
  | emitIgnored (msg : CBMessage)
  | emitDomain (type : String) (msg : CBMessage) (t : TimeVal)
  | logWarn (expected : Int) (got : Int)
deriving DecidableEq, Repr

/-- Exceptions thrown by the `OrderBook` methods. -/
inductive Err where
  | gaveUp
  | notConnected
deriving DecidableEq, Repr

/-- The mutable fields of the `OrderBook` object: `state` starts out
`undefined` (`none`), `book`, the pending `queue`, `failCount`, and whether
`this.socket` is set. -/
structure OrderBookState where
  state : Option STATES
  book : CoinbaseBookStorage
  queue : List CBMessage
  failCount : Nat
  socketExists : Bool
deriving DecidableEq, Repr

/-- Result of one method call: the object state after it (including
mutations made before a throw), the action trace it produced, and the
exception it threw, if any. -/
structure OBResult where
  st : OrderBookState
  actions : List Action
  err : Option Err
deriving DecidableEq, Repr

/-- JS numeric coercion of `book.sequence` in comparisons and arithmetic:
`null` behaves as `0` (`x <= null` compares with 0, `null + 1 = 1`). -/
def seqNum : Option Int → Int
  | none => 0
  | some n => n

/-- `clearBook()`: reset the queue and the book (`sequence: null`, empty
sides). -/
def clearBook (st : OrderBookState) : OrderBookState :=
  { st with
      queue := []
      book := { sequence := none, bids := [], asks := [] } }

/-- `connect()`: close any existing socket, clear the book, open a new
socket and attach handlers. -/
def connect (st : OrderBookState) : OBResult :=
  let closeActs : List Action := if st.socketExists then [Action.socketClose] else []
  let st1 := clearBook st
  ⟨{ st1 with socketExists := true }, closeActs, none⟩

/-- `changeState(state)`: record the old state, assign the new one, throw the
give-up error when `failCount > 3`, otherwise on `error`/`closed` increment
the counter, close the socket and schedule a reconnect, on `processing` reset
the counter, and finally emit `statechange{old, new}`. -/
def changeState (st : OrderBookState) (target : STATES) : OBResult :=
  let oldState := st.state
  let st1 := { st with state := some target }
  if st1.failCount > 3 then
    ⟨st1, [], some Err.gaveUp⟩
  else if target = STATES.error ∨ target = STATES.closed then
    ⟨{ st1 with failCount := st1.failCount + 1 },
      [Action.socketClose, Action.scheduleReconnect,
        Action.emitStateChange oldState target], none⟩
  else if target = STATES.processing then
    ⟨{ st1 with failCount := 0 }, [Action.emitStateChange oldState target], none⟩
  else
    ⟨st1, [Action.emitStateChange oldState target], none⟩

/-- `disconnect()`: throw the not-connected error when no socket exists;
otherwise close the socket and run `onClose`, i.e. `changeState(closed)`. -/
def disconnect (st : OrderBookState) : OBResult :=
  if st.socketExists = false then
    ⟨st, [], some Err.notConnected⟩
  else
    let r := changeState st STATES.closed
    ⟨r.st, Action.socketClose :: r.actions, r.err⟩

/-- `processMessage(message, t)`: drop-and-notify stale messages; on a
sequence gap call `changeState(error)` (whose throw, if any, propagates
before anything else happens) and log a warning; then advance
`book.sequence` and emit the message wrapped as `Timestamped(message, t)`
under its declared type. -/
def processMessage (st : OrderBookState) (msg : CBMessage) (t : TimeVal) : OBResult :=
  if msg.sequence ≤ seqNum st.book.sequence then
    ⟨st, [Action.emitIgnored msg], none⟩
  else if msg.sequence ≠ seqNum st.book.sequence + 1 then
    let r := changeState st STATES.error
    match r.err with
    | some e => ⟨r.st, r.actions, some e⟩
    | none =>
      let st2 := { r.st with book := { r.st.book with sequence := some msg.sequence } }
      ⟨st2, r.actions ++
        [Action.logWarn (seqNum st.book.sequence) msg.sequence,
          Action.emitDomain msg.type msg t], none⟩
  else
    let st2 := { st with book := { st.book with sequence := some msg.sequence } }
    ⟨st2, [Action.emitDomain msg.type msg t], none⟩

/-- `onMessage(datastr)`: capture the receipt time, parse, and either queue
the raw message (when not `processing`) — note the captured time is
discarded — or process it immediately with the receipt time. -/
def onMessage (st : OrderBookState) (msg : CBMessage) (now : Int) : OBResult :=
  if st.state ≠ some STATES.processing then
    ⟨{ st with queue := st.queue ++ [msg] }, [], none⟩
  else
    processMessage st msg (TimeVal.date now)

/-- A raw snapshot level `[price, size, orderID]`. -/
abbrev RawLevel := Int × Int × String

/-- `convertSnapshotArray`: `{price: array[0], size: array[1], id: array[2]}`. -/
def convertSnapshotArray (a : RawLevel) : CoinbaseEntry :=
  { price := a.1, size := a.2.1, id := a.2.2 }

/-- The parsed body of the level-3 book snapshot response. -/
structure SnapshotData where
  sequence : Int
  bids : List RawLevel
  asks : List RawLevel
deriving DecidableEq, Repr

/-- The per-side loop of `load`: insert each converted level keyed by its
orderID. -/
def mergeSide (m : SideMap) (levels : List RawLevel) : SideMap :=
  levels.foldl (fun acc lv => alInsert acc (convertSnapshotArray lv).id (convertSnapshotArray lv)) m

/-- `_.forEach(this.queue, this.processMessage.bind(this))`: replay queued
messages in order; lodash passes the array index as the second argument, so
each call is `processMessage(msg, i)`.  A throw aborts the iteration. -/
def replayQueue : OrderBookState → List CBMessage → Nat → OBResult
  | st, [], _ => ⟨st, [], none⟩
  | st, m :: ms, i =>
    let r := processMessage st m (TimeVal.idx i)
    match r.err with
    | some e => ⟨r.st, r.actions, some e⟩
    | none =>
      let rest := replayQueue r.st ms (i + 1)
      ⟨rest.st, r.actions ++ rest.actions, rest.err⟩

/-- The `load` closure inside `loadSnapshot`: merge the snapshot's bid and
ask levels into the book, set `book.sequence` to the snapshot's sequence,
enter `processing`, replay the pending queue, then clear the queue (the
clear is not reached if a replayed message throws). -/
def load (st : OrderBookState) (data : SnapshotData) : OBResult :=
  let book1 := { st.book with bids := mergeSide st.book.bids data.bids }
  let book2 := { book1 with asks := mergeSide book1.asks data.asks }
  let book3 := { book2 with sequence := some data.sequence }
  let st1 := { st with book := book3 }
  let r := changeState st1 STATES.processing
  match r.err with
  | some e => ⟨r.st, r.actions, some e⟩
  | none =>
    let rp := replayQueue r.st r.st.queue 0
    match rp.err with
    | some e => ⟨rp.st, r.actions ++ rp.actions, some e⟩
    | none => ⟨{ rp.st with queue := [] }, r.actions ++ rp.actions, none⟩

/-- Running a list of live messages through `processMessage`, stopping (as a
propagating exception does) at the first throw. -/
def applyMessages : OrderBookState → List (CBMessage × TimeVal) → OrderBookState
  | st, [] => st
  | st, (m, t) :: rest =>
    let r := processMessage st m t
    match r.err with
    | some _ => r.st
    | none => applyMessages r.st rest

/-! ## Helper lemmas -/

theorem changeState_st_book (st : OrderBookState) (tg : STATES) :
    (changeState st tg).st.book = st.book := by
  simp only [changeState]
  split
  · rfl
  · split
    · rfl
    · split <;> rfl

theorem changeState_st_queue (st : OrderBookState) (tg : STATES) :
    (changeState st tg).st.queue = st.queue := by
  simp only [changeState]
  split
  · rfl
  · split
    · rfl
    · split <;> rfl

/-! ## C7: connect clears the book and the pending queue -/

/-- C7: every invocation of `connect` (first connect or reconnect) leaves the
store with empty bid and ask sides, an unset sequence, and an empty pending
queue, so no orderID present before the reconnect is found in the new
store. -/
theorem connect_clears_book_and_queue (st : OrderBookState) :
    (connect st).err = none ∧
    (connect st).st.book.sequence = none ∧
    (connect st).st.book.bids = [] ∧
    (connect st).st.book.asks = [] ∧
    (connect st).st.queue = [] ∧
    ∀ k : String, alLookup (connect st).st.book.bids k = none ∧
      alLookup (connect st).st.book.asks k = none := by
  exact ⟨rfl, rfl, rfl, rfl, rfl, fun k => ⟨rfl, rfl⟩⟩

/-! ## C8: disconnect with no socket -/

/-- C8: calling `disconnect` when no socket exists throws the not-connected
misuse error, leaves the whole state unchanged, and performs no action (no
state transition, no emission, no socket operation). -/
theorem disconnect_without_socket_errors (st : OrderBookState)
    (h : st.socketExists = false) :
    disconnect st = ⟨st, [], some Err.notConnected⟩ := by
  simp [disconnect, h]

/-- Witness for C8 at a concrete socketless state. -/
theorem disconnect_without_socket_witness :
    ((⟨some STATES.closed, ⟨some 7, [], []⟩, [], 2, false⟩ : OrderBookState).socketExists = false) ∧
    disconnect ⟨some STATES.closed, ⟨some 7, [], []⟩, [], 2, false⟩ =
      ⟨⟨some STATES.closed, ⟨some 7, [], []⟩, [], 2, false⟩, [], some Err.notConnected⟩ :=
  ⟨rfl, disconnect_without_socket_errors _ rfl⟩

/-! ## C10: once failCount exceeds 3, every transition throws first -/

/-- C10: when the failure counter exceeds 3, `changeState` throws the give-up
error for every target state (including `processing`), producing no actions —
no state-changed emission, no counter increment, no counter reset, no socket
close, no reconnect scheduling; only the `state` field itself was already
assigned before the throw. -/
theorem give_up_blocks_all_transitions (st : OrderBookState) (target : STATES)
    (h : 3 < st.failCount) :
    changeState st target = ⟨{ st with state := some target }, [], some Err.gaveUp⟩ := by
  simp [changeState, h]

/-- Witness for C10: with the counter at 4, even a transition into
`processing` (a successful reconnect's bootstrap) throws, and the counter is
not reset. -/
theorem give_up_blocks_witness :
    (3 < (⟨some STATES.error, ⟨some 10, [], []⟩, [], 4, true⟩ : OrderBookState).failCount) ∧
    changeState ⟨some STATES.error, ⟨some 10, [], []⟩, [], 4, true⟩ STATES.processing =
      ⟨⟨some STATES.processing, ⟨some 10, [], []⟩, [], 4, true⟩, [], some Err.gaveUp⟩ :=
  ⟨by decide, give_up_blocks_all_transitions _ STATES.processing (by decide)⟩

/-! ## C1: gap handling -/

/-- C1 counterexample: in `processing` at sequence 10 with failure counter 0,
a message with sequence 12 (a gap) drives the machine into `error`, closes
the socket and schedules a reconnect — refuting the claim that a gap causes
no Error transition, no socket close and no reconnect. -/
theorem gap_aborts_connection_cex :
    (processMessage ⟨some STATES.processing, ⟨some 10, [], []⟩, [], 0, true⟩
        ⟨12, "match"⟩ (TimeVal.date 5)).st.state = some STATES.error ∧
    Action.socketClose ∈ (processMessage ⟨some STATES.processing, ⟨some 10, [], []⟩, [], 0, true⟩
        ⟨12, "match"⟩ (TimeVal.date 5)).actions ∧
    Action.scheduleReconnect ∈ (processMessage ⟨some STATES.processing, ⟨some 10, [], []⟩, [], 0, true⟩
        ⟨12, "match"⟩ (TimeVal.date 5)).actions := by
  decide

/-- C1 amended: a gapped event (sequence > current + 1, counter ≤ 3) is
still applied (sequence advanced to the event's) and still emitted with a
warning logged, but the machine also transitions into `error`, closing the
socket and scheduling a reconnect — exactly in this order: socket close,
reconnect scheduling, state-changed emission, warning, domain emission. -/
theorem gap_transitions_to_error_and_still_applies (st : OrderBookState)
    (msg : CBMessage) (t : TimeVal) (hf : st.failCount ≤ 3)
    (hg : seqNum st.book.sequence + 1 < msg.sequence) :
    (processMessage st msg t).err = none ∧
    (processMessage st msg t).st.state = some STATES.error ∧
    (processMessage st msg t).st.book.sequence = some msg.sequence ∧
    (processMessage st msg t).actions =
      [Action.socketClose, Action.scheduleReconnect,
        Action.emitStateChange st.state STATES.error,
        Action.logWarn (seqNum st.book.sequence) msg.sequence,
        Action.emitDomain msg.type msg t] := by
  have h1 : ¬ msg.sequence ≤ seqNum st.book.sequence := by omega
  have h2 : msg.sequence ≠ seqNum st.book.sequence + 1 := by omega
  have h3 : ¬ st.failCount > 3 := by omega
  simp [processMessage, changeState, h1, h2, h3]

/-- Witness for C1's amended theorem at the counterexample's input. -/
theorem gap_transitions_witness :
    ((⟨some STATES.processing, ⟨some 10, [], []⟩, [], 0, true⟩ : OrderBookState).failCount ≤ 3) ∧
    (processMessage ⟨some STATES.processing, ⟨some 10, [], []⟩, [], 0, true⟩
        ⟨12, "match"⟩ (TimeVal.date 5)).st.book.sequence = some (12 : Int) :=
  ⟨by decide,
    (gap_transitions_to_error_and_still_applies
      ⟨some STATES.processing, ⟨some 10, [], []⟩, [], 0, true⟩
      ⟨12, "match"⟩ (TimeVal.date 5) (by decide) (by decide)).2.2.1⟩

/-! ## C2: give-up threshold timing -/

/-- C2 counterexample: four consecutive `error` transitions from a fresh
counter leave `failCount = 4` without throwing, and the fourth transition
still schedules a reconnect (a 5th connection attempt) — refuting the claim
that after exactly 4 consecutive failures the give-up error is raised and no
further attempt is scheduled. -/
theorem fourth_failure_schedules_fifth_cex :
    (changeState (changeState (changeState (changeState
        ⟨some STATES.syncing, ⟨none, [], []⟩, [], 0, true⟩
        STATES.error).st STATES.error).st STATES.error).st STATES.error).err = none ∧
    Action.scheduleReconnect ∈ (changeState (changeState (changeState (changeState
        ⟨some STATES.syncing, ⟨none, [], []⟩, [], 0, true⟩
        STATES.error).st STATES.error).st STATES.error).st STATES.error).actions ∧
    (changeState (changeState (changeState (changeState
        ⟨some STATES.syncing, ⟨none, [], []⟩, [], 0, true⟩
        STATES.error).st STATES.error).st STATES.error).st STATES.error).st.failCount = 4 := by
  decide

/-- C2 amended: the 4th consecutive failure transition (entered with the
counter at 3) does not throw and still schedules a reconnect, leaving the
counter at 4; the give-up error is raised at the next `changeState` call —
whatever its target — which produces no actions (so no 5th failure handling
and no reconnect scheduling happens from that call on). -/
theorem give_up_raised_on_transition_after_fourth_failure (st : OrderBookState)
    (target : STATES) (h : st.failCount = 3) :
    (changeState st STATES.error).err = none ∧
    Action.scheduleReconnect ∈ (changeState st STATES.error).actions ∧
    (changeState st STATES.error).st.failCount = 4 ∧
    (changeState (changeState st STATES.error).st target).err = some Err.gaveUp ∧
    (changeState (changeState st STATES.error).st target).actions = [] := by
  simp [changeState, h]

/-- Witness for C2's amended theorem. -/
theorem give_up_after_fourth_witness :
    ((⟨some STATES.syncing, ⟨none, [], []⟩, [], 3, true⟩ : OrderBookState).failCount = 3) ∧
    (changeState (changeState ⟨some STATES.syncing, ⟨none, [], []⟩, [], 3, true⟩
        STATES.error).st STATES.«open»).err = some Err.gaveUp :=
  ⟨rfl,
    (give_up_raised_on_transition_after_fourth_failure
      ⟨some STATES.syncing, ⟨none, [], []⟩, [], 3, true⟩ STATES.«open» rfl).2.2.2.1⟩

/-! ## C3: state-changed emission order -/

/-- C3 counterexample: on a failure transition with counter 0, the
state-changed emission comes after the socket close and the reconnect
scheduling; and with the counter at 4 the transition emits nothing at all —
refuting emission before failure actions and emission regardless of
outcome. -/
theorem statechange_emitted_last_cex :
    (changeState ⟨some STATES.syncing, ⟨none, [], []⟩, [], 0, true⟩ STATES.error).actions =
      [Action.socketClose, Action.scheduleReconnect,
        Action.emitStateChange (some STATES.syncing) STATES.error] ∧
    (changeState ⟨some STATES.syncing, ⟨none, [], []⟩, [], 4, true⟩ STATES.error).actions = [] := by
  decide

/-- C3 amended: every transition that does not raise the give-up error
(counter ≤ 3) emits a state-changed event carrying the old and new state,
but as the last action, after any failure-specific socket close and
reconnect scheduling; a transition that raises give-up emits nothing. -/
theorem statechange_emitted_after_failure_actions (st : OrderBookState)
    (target : STATES) (h : st.failCount ≤ 3) :
    (changeState st target).err = none ∧
    ∃ pre, (changeState st target).actions =
        pre ++ [Action.emitStateChange st.state target] ∧
      ∀ a ∈ pre, a = Action.socketClose ∨ a = Action.scheduleReconnect := by
  have h3 : ¬ st.failCount > 3 := by omega
  cases target with
  | error =>
      refine ⟨by simp [changeState, h3], [Action.socketClose, Action.scheduleReconnect], by simp [changeState, h3], ?_⟩
      intro a ha
      simpa using ha
  | closed =>
      refine ⟨by simp [changeState, h3], [Action.socketClose, Action.scheduleReconnect], by simp [changeState, h3], ?_⟩
      intro a ha
      simpa using ha
  | processing =>
      exact ⟨by simp [changeState, h3], [], by simp [changeState, h3], by simp⟩
  | «open» =>
      exact ⟨by simp [changeState, h3], [], by simp [changeState, h3], by simp⟩
  | syncing =>
      exact ⟨by simp [changeState, h3], [], by simp [changeState, h3], by simp⟩

/-- Witness for C3's amended theorem. -/
theorem statechange_emission_witness :
    ((⟨some STATES.syncing, ⟨none, [], []⟩, [], 0, true⟩ : OrderBookState).failCount ≤ 3) ∧
    (changeState ⟨some STATES.syncing, ⟨none, [], []⟩, [], 0, true⟩ STATES.error).err = none :=
  ⟨by decide,
    (statechange_emitted_after_failure_actions
      ⟨some STATES.syncing, ⟨none, [], []⟩, [], 0, true⟩ STATES.error (by decide)).1⟩

/-! ## C4: processing resets the failure counter -/

/-- C4 counterexample: 3 failures, then `processing` (counter reset to 0),
then 3 more failures, then one further failure: that 4th consecutive
failure does not raise the give-up error (it returns normally with the
counter at 4) — refuting the claim that it triggers give-up. -/
theorem fourth_consecutive_failure_no_throw_cex :
    (changeState (changeState (changeState (changeState (changeState (changeState
        (changeState (changeState ⟨some STATES.syncing, ⟨none, [], []⟩, [], 0, true⟩
        STATES.error).st STATES.error).st STATES.error).st
        STATES.processing).st STATES.error).st STATES.error).st STATES.error).st
        STATES.error).err = none ∧
    (changeState (changeState (changeState (changeState (changeState (changeState
        (changeState (changeState ⟨some STATES.syncing, ⟨none, [], []⟩, [], 0, true⟩
        STATES.error).st STATES.error).st STATES.error).st
        STATES.processing).st STATES.error).st STATES.error).st STATES.error).st
        STATES.error).st.failCount = 4 ∧
    (changeState (changeState (changeState (changeState ⟨some STATES.syncing, ⟨none, [], []⟩, [], 0, true⟩
        STATES.error).st STATES.error).st STATES.error).st STATES.processing).st.failCount = 0 := by
  decide

/-- C4 amended: entering `processing` with the counter at most 3 resets it
to 0, so only consecutive failures count; after a reset, the next three
failure transitions (counters 0, 1, 2 at entry) and even the 4th (counter 3
at entry) return without give-up, the 4th leaving the counter at 4; the
give-up error is then raised at the transition after it. -/
theorem processing_resets_failure_counter (st : OrderBookState)
    (h : st.failCount ≤ 3) :
    ((changeState st STATES.processing).err = none ∧
      (changeState st STATES.processing).st.failCount = 0) ∧
    (st.failCount ≤ 2 → (changeState st STATES.error).err = none ∧
      (changeState st STATES.error).st.failCount ≤ 3) ∧
    (st.failCount = 3 → (changeState st STATES.error).err = none ∧
      (changeState (changeState st STATES.error).st STATES.error).err = some Err.gaveUp) := by
  have h3 : ¬ st.failCount > 3 := by omega
  refine ⟨⟨by simp [changeState, h3], by simp [changeState, h3]⟩, fun h2 => ⟨?_, ?_⟩, fun heq => ⟨?_, ?_⟩⟩
  · simp [changeState, h3]
  · simp [changeState, h3]
    omega
  · simp [changeState, h3]
  · simp [changeState, h3, heq]

/-- Witness for C4's amended theorem. -/
theorem processing_reset_witness :
    ((⟨some STATES.syncing, ⟨none, [], []⟩, [], 3, true⟩ : OrderBookState).failCount ≤ 3) ∧
    (changeState ⟨some STATES.syncing, ⟨none, [], []⟩, [], 3, true⟩ STATES.processing).st.failCount = 0 :=
  ⟨by decide,
    (processing_resets_failure_counter
      ⟨some STATES.syncing, ⟨none, [], []⟩, [], 3, true⟩ (by decide)).1.2⟩

/-! ## C5: sequence monotonicity and stale events -/

theorem processMessage_seqNum_le (st : OrderBookState) (m : CBMessage) (t : TimeVal) :
    seqNum st.book.sequence ≤ seqNum (processMessage st m t).st.book.sequence := by
  simp only [processMessage]
  split
  · exact le_refl _
  · rename_i h1
    split
    · split
      · rw [changeState_st_book]
      · show seqNum st.book.sequence ≤ m.sequence
        omega
    · show seqNum st.book.sequence ≤ m.sequence
      omega

theorem applyMessages_seqNum_mono (st : OrderBookState)
    (msgs : List (CBMessage × TimeVal)) :
    seqNum st.book.sequence ≤ seqNum (applyMessages st msgs).book.sequence := by
  induction msgs generalizing st with
  | nil => simp [applyMessages]
  | cons p rest ih =>
      obtain ⟨m, t⟩ := p
      have hstep := processMessage_seqNum_le st m t
      simp only [applyMessages]
      cases hcs : (processMessage st m t).err with
      | some e => simpa [hcs] using hstep
      | none => exact le_trans hstep (by simpa [hcs] using ih (processMessage st m t).st)

/-- C5: across any run of `processMessage` calls the store's (coerced)
sequence number is non-decreasing, and a stale event (sequence at most the
current one) leaves the whole state untouched, emits exactly the `ignored`
notification and no domain event, and throws nothing. -/
theorem sequence_monotone_and_stale_unchanged (st : OrderBookState)
    (msgs : List (CBMessage × TimeVal)) (m : CBMessage) (t : TimeVal)
    (hstale : m.sequence ≤ seqNum st.book.sequence) :
    seqNum st.book.sequence ≤ seqNum (applyMessages st msgs).book.sequence ∧
    processMessage st m t = ⟨st, [Action.emitIgnored m], none⟩ := by
  exact ⟨applyMessages_seqNum_mono st msgs, by simp [processMessage, hstale]⟩

/-- Witness for C5 at a concrete state and stale message. -/
theorem sequence_monotone_witness :
    ((⟨10, "done"⟩ : CBMessage).sequence ≤
      seqNum (⟨some STATES.processing, ⟨some 10, [], []⟩, [], 0, true⟩ : OrderBookState).book.sequence) ∧
    processMessage ⟨some STATES.processing, ⟨some 10, [], []⟩, [], 0, true⟩
        ⟨10, "done"⟩ (TimeVal.date 7) =
      ⟨⟨some STATES.processing, ⟨some 10, [], []⟩, [], 0, true⟩,
        [Action.emitIgnored ⟨10, "done"⟩], none⟩ :=
  ⟨by decide,
    (sequence_monotone_and_stale_unchanged
      ⟨some STATES.processing, ⟨some 10, [], []⟩, [], 0, true⟩
      [(⟨11, "match"⟩, TimeVal.date 8)] ⟨10, "done"⟩ (TimeVal.date 7) (by decide)).2⟩

/-! ## C6: timestamp of replayed events -/

/-- C6: a message received at time 999 while the state is `syncing` is
queued with its receipt time discarded; after the snapshot merge the replay
emits its domain event wrapped with the lodash array index `0` as the
timestamp, not with the receipt time 999 — the code contradicts the claim
(and its own `t: Date` annotation) for replayed events. -/
theorem replayed_event_timestamped_with_index :
    (load (onMessage ⟨some STATES.syncing, ⟨none, [], []⟩, [], 0, true⟩
        ⟨51, "match"⟩ 999).st ⟨50, [], []⟩).err = none ∧
    Action.emitDomain "match" ⟨51, "match"⟩ (TimeVal.idx 0) ∈
      (load (onMessage ⟨some STATES.syncing, ⟨none, [], []⟩, [], 0, true⟩
        ⟨51, "match"⟩ 999).st ⟨50, [], []⟩).actions ∧
    Action.emitDomain "match" ⟨51, "match"⟩ (TimeVal.date 999) ∉
      (load (onMessage ⟨some STATES.syncing, ⟨none, [], []⟩, [], 0, true⟩
        ⟨51, "match"⟩ 999).st ⟨50, [], []⟩).actions := by
  decide

/-! ## C9: snapshot merge -/

theorem alLookup_alInsert_self (m : SideMap) (k : String) (v : CoinbaseEntry) :
    alLookup (alInsert m k v) k = some v := by
  induction m with
  | nil => simp [alInsert, alLookup]
  | cons p rest ih =>
      obtain ⟨k', v'⟩ := p
      by_cases h : k' = k <;> simp [alInsert, alLookup, h, ih]

theorem alLookup_alInsert_ne (m : SideMap) (k k' : String) (v : CoinbaseEntry)
    (h : k' ≠ k) : alLookup (alInsert m k' v) k = alLookup m k := by
  induction m with
  | nil => simp [alInsert, alLookup, h]
  | cons p rest ih =>
      obtain ⟨k0, v0⟩ := p
      by_cases h0 : k0 = k'
      · subst h0
        simp [alInsert, alLookup, h]
      · simp only [alInsert, if_neg h0, alLookup]
        by_cases h1 : k0 = k <;> simp [h1, ih]

theorem mergeSide_cons (m : SideMap) (a : RawLevel) (rest : List RawLevel) :
    mergeSide m (a :: rest) =
      mergeSide (alInsert m (convertSnapshotArray a).id (convertSnapshotArray a)) rest := rfl

theorem alLookup_mergeSide_not_mem (m : SideMap) (levels : List RawLevel)
    (k : String) (hk : k ∉ levels.map fun lv => lv.2.2) :
    alLookup (mergeSide m levels) k = alLookup m k := by
  induction levels generalizing m with
  | nil => simp [mergeSide]
  | cons a rest ih =>
      simp only [List.map_cons, List.mem_cons, not_or] at hk
      rw [mergeSide_cons, ih _ hk.2]
      exact alLookup_alInsert_ne m k a.2.2 (convertSnapshotArray a) fun h => hk.1 h.symm

theorem alLookup_mergeSide_mem (m : SideMap) (levels : List RawLevel)
    (hnd : (levels.map fun lv => lv.2.2).Nodup) (lv : RawLevel)
    (hmem : lv ∈ levels) :
    alLookup (mergeSide m levels) lv.2.2 = some (convertSnapshotArray lv) := by
  induction levels generalizing m with
  | nil => cases hmem
  | cons a rest ih =>
      simp only [List.map_cons, List.nodup_cons] at hnd
      rw [List.mem_cons] at hmem
      rcases hmem with rfl | hmem
      · rw [mergeSide_cons, alLookup_mergeSide_not_mem _ rest _ hnd.1]
        exact alLookup_alInsert_self m _ _
      · rw [mergeSide_cons]
        exact ih _ hnd.2 hmem

/-- C9: merging a snapshot into a store with an empty queue and a
non-exceeding failure counter sets the store's sequence to the snapshot's
declared sequence and, when per-side orderIDs are distinct, makes every raw
level retrievable by its orderID as the corresponding `BookEntry`; on the
claim's concrete snapshot (bids `[[100,2,a],[99,1,b]]`, asks `[[101,3,c]]`,
sequence 50) the resulting book is exactly `sequence=50`,
`bids={a↦(100,2,a), b↦(99,1,b)}`, `asks={c↦(101,3,c)}`. -/
theorem snapshot_merge_inserts_levels (st : OrderBookState) (data : SnapshotData)
    (hq : st.queue = []) (hf : st.failCount ≤ 3)
    (hb : (data.bids.map fun lv => lv.2.2).Nodup)
    (ha : (data.asks.map fun lv => lv.2.2).Nodup) :
    (load st data).err = none ∧
    (load st data).st.book.sequence = some data.sequence ∧
    (∀ lv ∈ data.bids,
      alLookup (load st data).st.book.bids lv.2.2 = some (convertSnapshotArray lv)) ∧
    (∀ lv ∈ data.asks,
      alLookup (load st data).st.book.asks lv.2.2 = some (convertSnapshotArray lv)) ∧
    (load (connect ⟨some STATES.syncing, ⟨none, [], []⟩, [], 0, true⟩).st
        ⟨50, [(100, 2, "a"), (99, 1, "b")], [(101, 3, "c")]⟩).st.book =
      ⟨some 50, [("a", ⟨100, 2, "a"⟩), ("b", ⟨99, 1, "b"⟩)], [("c", ⟨101, 3, "c"⟩)]⟩ := by
  have h3 : ¬ st.failCount > 3 := by omega
  have hbook : (load st data).st.book =
      { sequence := some data.sequence,
        bids := mergeSide st.book.bids data.bids,
        asks := mergeSide st.book.asks data.asks } ∧ (load st data).err = none := by
    simp [load, changeState, h3, hq, replayQueue]
  refine ⟨hbook.2, ?_, ?_, ?_, by decide⟩
  · rw [hbook.1]
  · intro lv hmem
    rw [hbook.1]
    exact alLookup_mergeSide_mem _ _ hb lv hmem
  · intro lv hmem
    rw [hbook.1]
    exact alLookup_mergeSide_mem _ _ ha lv hmem

/-- Witness for C9 on the claim's concrete snapshot. -/
theorem snapshot_merge_witness :
    ((connect ⟨some STATES.syncing, ⟨none, [], []⟩, [], 0, true⟩).st.queue = []) ∧
    (load (connect ⟨some STATES.syncing, ⟨none, [], []⟩, [], 0, true⟩).st
        ⟨50, [(100, 2, "a"), (99, 1, "b")], [(101, 3, "c")]⟩).st.book.sequence = some 50 :=
  ⟨rfl,
    (snapshot_merge_inserts_levels (connect ⟨some STATES.syncing, ⟨none, [], []⟩, [], 0, true⟩).st
      ⟨50, [(100, 2, "a"), (99, 1, "b")], [(101, 3, "c")]⟩
      rfl (by decide) (by decide) (by decide)).2.1⟩

end Tribeca
